import Mathlib

/-!
Shallow embedding of the SSH connection-establishment service
(`ssh.service.ts`): credential resolution (`getConnectionDetails`),
session establishment (`establishSshConnection`), and the two
connection-test entry points (`testConnection`, `testUnsavedConnection`).

Repository lookups, the key vault and the decrypt oracle are passed in
as an explicit environment `Env`; the asynchronous transport behaviour
(proxy handshake result, the sequence of `ready`/`error`/`close` events
emitted by the ssh client, the outcome of the last-connected update) is
passed in as a `World`.  Every observable action (lookup, decrypt call,
socket operation, promise settlement) is recorded in a trace of `Act`s
so that call-order and exactly-once properties can be stated.
-/

/-- Authentication mode of a connection profile (`'password' | 'key'`). -/

inductive AuthMethod where
  | password
  | key
deriving DecidableEq, Repr

/-- Supported proxy types (`'SOCKS5' | 'HTTP'`). -/
inductive ProxyType where
  | SOCKS5
  | HTTP
deriving DecidableEq, Repr

/-- JavaScript truthiness for an optional number field: `null`/`undefined`
and `0` are falsy.  Returns the value exactly when it is truthy. -/
def truthyNat : Option Nat → Option Nat
  | none => none
  | some n => if n = 0 then none else some n

/-- JavaScript truthiness for an optional string field: `null`/`undefined`
and the empty string are falsy.  Returns the value exactly when it is truthy. -/
def truthyStr : Option String → Option String
  | none => none
  | some s => if s = "" then none else some s

/-- Validation at line 103 / 406 of the source: a stored proxy type string
is accepted only when it is exactly `SOCKS5` or `HTTP`. -/
def parseProxyType (s : String) : Option ProxyType :=
  if s = "SOCKS5" then some ProxyType.SOCKS5
  else if s = "HTTP" then some ProxyType.HTTP
  else none

/-- Raw joined row returned by `ConnectionRepository.findFullConnectionById`.
Nullable columns are `Option`s. -/
structure RawConnInfo where
  id : Int
  name : Option String
  host : Option String
  port : Option Nat
  username : Option String
  auth_method : Option AuthMethod
  encrypted_password : Option String
  encrypted_private_key : Option String
  encrypted_passphrase : Option String
  ssh_key_id : Option Nat
  proxy_db_id : Option Nat
  proxy_name : Option String
  proxy_type : Option String
  proxy_host : Option String
  proxy_port : Option Nat
  proxy_username : Option String
  proxy_encrypted_password : Option String
deriving DecidableEq, Repr

/-- Raw row returned by `ProxyRepository.findProxyById`. -/
structure RawProxyInfo where
  id : Nat
  name : Option String
  type : Option String
  host : Option String
  port : Option Nat
  username : Option String
  encrypted_password : Option String
deriving DecidableEq, Repr

/-- Decrypted key-vault entry returned by
`SshKeyService.getDecryptedSshKeyById`. -/
structure DecryptedSshKey where
  privateKey : String
  passphrase : Option String
deriving DecidableEq, Repr

/-- Resolved proxy descriptor inside `DecryptedConnectionDetails`. -/
structure ResolvedProxy where
  id : Nat
  name : String
  type : ProxyType
  host : String
  port : Nat
  username : Option String
  password : Option String
deriving DecidableEq, Repr

/-- The resolved credential set (`DecryptedConnectionDetails` in the
source).  `id` is an `Int` because the unsaved-test path uses the
sentinel `-1`. -/
structure DecryptedConnectionDetails where
  id : Int
  name : String
  host : String
  port : Nat
  username : String
  auth_method : AuthMethod
  password : Option String
  privateKey : Option String
  passphrase : Option String
  proxy : Option ResolvedProxy
deriving DecidableEq, Repr

/-- Input of `testUnsavedConnection`. -/
structure TestConnectionConfig where
  host : String
  port : Nat
  username : String
  auth_method : AuthMethod
  password : Option String
  private_key : Option String
  passphrase : Option String
  ssh_key_id : Option Nat
  proxy_id : Option Nat
deriving DecidableEq, Repr

/-- Errors thrown during credential/proxy resolution.  `wrapped` is the
catch-all re-throw `处理凭证失败: ...` of `getConnectionDetails`;
`wrappedProxy` is the re-throw `处理代理凭证失败: ...` of
`testUnsavedConnection`'s proxy block. -/
inductive ResolveError where
  | notFound (connectionId : Nat)
  | nullField (field : String)
  | keyNotFound (keyId : Nat)
  | decryptionFailed (ciphertext : String)
  | invalidProxyType (stored : String)
  | proxyNotFound (proxyId : Nat)
  | wrapped (e : ResolveError)
  | wrappedProxy (e : ResolveError)
deriving DecidableEq, Repr

/-- Errors produced while establishing the SSH session. -/
inductive SshError where
  | socksProxyFailed (host : String) (port : Nat) (msg : String)
  | httpProxyStatus (host : String) (port : Nat) (status : Nat)
  | httpProxyReqError (host : String) (port : Nat) (msg : String)
  | httpProxyTimeout (host : String) (port : Nat)
  | transportError (msg : String)
deriving DecidableEq, Repr

/-- Human-readable message attached to each `SshError`, mirroring the
strings built in the source. -/
def SshError.message : SshError → String
  | .socksProxyFailed h p m =>
      "SOCKS5 代理 " ++ h ++ ":" ++ Nat.repr p ++ " 连接失败: " ++ m
  | .httpProxyStatus h p s =>
      "HTTP 代理 " ++ h ++ ":" ++ Nat.repr p ++ " 连接失败 (状态码: " ++ Nat.repr s ++ ")"
  | .httpProxyReqError h p m =>
      "HTTP 代理 " ++ h ++ ":" ++ Nat.repr p ++ " 请求错误: " ++ m
  | .httpProxyTimeout h p =>
      "HTTP 代理 " ++ h ++ ":" ++ Nat.repr p ++ " 连接超时"
  | .transportError m => m

/-- Observable actions, in program order.  Each `decrypt…` constructor
corresponds to one distinct `decrypt(...)` call site in the source. -/
inductive Act where
  | repoLookup (connectionId : Nat)
  | proxyLookup (proxyId : Nat)
  | vaultFetch (keyId : Nat)
  | decryptPassword (ciphertext : String)
  | decryptInlineKey (ciphertext : String)
  | decryptPassphrase (ciphertext : String)
  | decryptProxyPassword (ciphertext : String)
  | clientCreate
  | socksAttempt (host : String) (port : Nat)
  | httpConnectAttempt (host : String) (port : Nat)
  | socketDestroy
  | reqDestroy
  | sshConnect
  | clientEnd
  | logEndError
  | updateLastConnected (id : Int) (epochSeconds : Nat)
  | logUpdateError
  | resolvedNotice
  | rejectedNotice
deriving DecidableEq, Repr

/-- Actions that are pure, read-only lookups or decryptions (the only
things credential resolution is allowed to do). -/
def Act.isReadOnlyLookup : Act → Bool
  | .repoLookup _ => true
  | .proxyLookup _ => true
  | .vaultFetch _ => true
  | .decryptPassword _ => true
  | .decryptInlineKey _ => true
  | .decryptPassphrase _ => true
  | .decryptProxyPassword _ => true
  | _ => false

/-- Actions that touch the network (open a socket / start a handshake). -/
def Act.isNetworkOp : Act → Bool
  | .socksAttempt _ _ => true
  | .httpConnectAttempt _ _ => true
  | .sshConnect => true
  | _ => false

/-- Count the occurrences of an action in a trace. -/
def countAct : List Act → Act → Nat
  | [], _ => 0
  | b :: l, a => (if b = a then 1 else 0) + countAct l a

/-- The external collaborators: repositories, key vault and the decrypt
oracle.  `decrypt` may fail (`DecryptionFailed`). -/
structure Env where
  findFullConnectionById : Nat → Option RawConnInfo
  getDecryptedSshKeyById : Nat → Option DecryptedSshKey
  decrypt : String → Except Unit String
  findProxyById : Nat → Option RawProxyInfo

/-- Mandatory-field validation of the raw connection row (the inline
`?? throw` checks at lines 55-59, in source order). -/
def requiredFields (raw : RawConnInfo) :
    Except ResolveError (String × String × Nat × String × AuthMethod) :=
  match raw.name with
  | none => .error (.nullField "name")
  | some nm =>
    match raw.host with
    | none => .error (.nullField "host")
    | some hst =>
      match raw.port with
      | none => .error (.nullField "port")
      | some prt =>
        match raw.username with
        | none => .error (.nullField "username")
        | some usr =>
          match raw.auth_method with
          | none => .error (.nullField "auth_method")
          | some am => .ok (nm, hst, prt, usr, am)

/-- Credential population of `getConnectionDetails` (lines 67-93):
password decryption, stored-key fetch (taking precedence), inline key
decryption, or the warning-only empty case.  Returns
`(password, privateKey, passphrase)` and the trace of oracle calls. -/
def resolveCredentials (env : Env) (raw : RawConnInfo) (am : AuthMethod) :
    Except ResolveError (Option String × Option String × Option String) × List Act :=
  match am with
  | .password =>
    match truthyStr raw.encrypted_password with
    | some ep =>
      match env.decrypt ep with
      | .ok p => (.ok (some p, none, none), [.decryptPassword ep])
      | .error _ => (.error (.decryptionFailed ep), [.decryptPassword ep])
    | none => (.ok (none, none, none), [])
  | .key =>
    match truthyNat raw.ssh_key_id with
    | some kid =>
      match env.getDecryptedSshKeyById kid with
      | some k => (.ok (none, some k.privateKey, k.passphrase), [.vaultFetch kid])
      | none => (.error (.keyNotFound kid), [.vaultFetch kid])
    | none =>
      match truthyStr raw.encrypted_private_key with
      | some epk =>
        match env.decrypt epk with
        | .error _ => (.error (.decryptionFailed epk), [.decryptInlineKey epk])
        | .ok pk =>
          match truthyStr raw.encrypted_passphrase with
          | some epp =>
            match env.decrypt epp with
            | .ok pp =>
                (.ok (none, some pk, some pp), [.decryptInlineKey epk, .decryptPassphrase epp])
            | .error _ =>
                (.error (.decryptionFailed epp), [.decryptInlineKey epk, .decryptPassphrase epp])
          | none => (.ok (none, some pk, none), [.decryptInlineKey epk])
      | none => (.ok (none, none, none), [])

/-- Proxy resolution of `getConnectionDetails` (lines 95-117): the proxy
columns of the joined row are validated and the proxy password decrypted. -/
def resolveProxyOfConn (env : Env) (raw : RawConnInfo) :
    Except ResolveError (Option ResolvedProxy) × List Act :=
  match truthyNat raw.proxy_db_id with
  | none => (.ok none, [])
  | some pid =>
    match raw.proxy_name with
    | none => (.error (.nullField "proxy_name"), [])
    | some pname =>
      match raw.proxy_type with
      | none => (.error (.nullField "proxy_type"), [])
      | some ptStr =>
        match raw.proxy_host with
        | none => (.error (.nullField "proxy_host"), [])
        | some phost =>
          match raw.proxy_port with
          | none => (.error (.nullField "proxy_port"), [])
          | some pport =>
            match parseProxyType ptStr with
            | none => (.error (.invalidProxyType ptStr), [])
            | some pt =>
              match truthyStr raw.proxy_encrypted_password with
              | some pep =>
                match env.decrypt pep with
                | .ok pw =>
                    (.ok (some { id := pid, name := pname, type := pt, host := phost,
                                 port := pport, username := truthyStr raw.proxy_username,
                                 password := some pw }), [.decryptProxyPassword pep])
                | .error _ =>
                    (.error (.decryptionFailed pep), [.decryptProxyPassword pep])
              | none =>
                  (.ok (some { id := pid, name := pname, type := pt, host := phost,
                               port := pport, username := truthyStr raw.proxy_username,
                               password := none }), [])

/-- Body of the `try` block of `getConnectionDetails` (lines 51-119). -/
def resolveBody (env : Env) (raw : RawConnInfo) :
    Except ResolveError DecryptedConnectionDetails × List Act :=
  match requiredFields raw with
  | .error e => (.error e, [])
  | .ok (nm, hst, prt, usr, am) =>
    match resolveCredentials env raw am with
    | (.error e, t1) => (.error e, t1)
    | (.ok (pw, pk, pp), t1) =>
      match resolveProxyOfConn env raw with
      | (.error e, t2) => (.error e, t1 ++ t2)
      | (.ok prx, t2) =>
        (.ok { id := raw.id, name := nm, host := hst, port := prt, username := usr,
               auth_method := am, password := pw, privateKey := pk, passphrase := pp,
               proxy := prx }, t1 ++ t2)

/-- `getConnectionDetails(connectionId)` (lines 44-124): repository
lookup, then the `try` body whose errors are re-thrown wrapped as
`处理凭证失败: ...`. -/
def getConnectionDetails (env : Env) (connectionId : Nat) :
    Except ResolveError DecryptedConnectionDetails × List Act :=
  match env.findFullConnectionById connectionId with
  | none => (.error (.notFound connectionId), [.repoLookup connectionId])
  | some raw =>
    match resolveBody env raw with
    | (.ok d, t) => (.ok d, .repoLookup connectionId :: t)
    | (.error e, t) => (.error (.wrapped e), .repoLookup connectionId :: t)

/-- Credential population of `testUnsavedConnection` (lines 371-389):
password mode copies the caller's plaintext password; key mode fetches
the stored key when `ssh_key_id` is truthy (failing with key-not-found
when the reference is dangling), otherwise copies the caller's inline
plaintext key and passphrase. -/
def testCredentials (env : Env) (cfg : TestConnectionConfig) :
    Except ResolveError (Option String × Option String × Option String) × List Act :=
  match cfg.auth_method with
  | .password => (.ok (cfg.password, none, none), [])
  | .key =>
    match truthyNat cfg.ssh_key_id with
    | some kid =>
      match env.getDecryptedSshKeyById kid with
      | some k => (.ok (none, some k.privateKey, k.passphrase), [.vaultFetch kid])
      | none => (.error (.keyNotFound kid), [.vaultFetch kid])
    | none => (.ok (none, cfg.private_key, cfg.passphrase), [])

/-- Validation and decryption of a looked-up proxy row in
`testUnsavedConnection` (lines 398-423, the inner `try` body). -/
def validateRawProxy (env : Env) (rp : RawProxyInfo) :
    Except ResolveError ResolvedProxy × List Act :=
  match rp.name with
  | none => (.error (.nullField "name"), [])
  | some pname =>
    match rp.type with
    | none => (.error (.nullField "type"), [])
    | some ptStr =>
      match rp.host with
      | none => (.error (.nullField "host"), [])
      | some phost =>
        match rp.port with
        | none => (.error (.nullField "port"), [])
        | some pport =>
          match parseProxyType ptStr with
          | none => (.error (.invalidProxyType ptStr), [])
          | some pt =>
            match truthyStr rp.encrypted_password with
            | some pep =>
              match env.decrypt pep with
              | .ok pw2 =>
                  (.ok { id := rp.id, name := pname, type := pt, host := phost,
                         port := pport, username := truthyStr rp.username,
                         password := some pw2 }, [.decryptProxyPassword pep])
              | .error _ =>
                  (.error (.decryptionFailed pep), [.decryptProxyPassword pep])
            | none =>
                (.ok { id := rp.id, name := pname, type := pt, host := phost,
                       port := pport, username := truthyStr rp.username,
                       password := none }, [])

/-- Proxy resolution of `testUnsavedConnection` (lines 391-424): when
`proxy_id` is truthy, look the proxy up (key-not-found style error when
absent, un-wrapped) and validate/decrypt it, wrapping validation errors
as `处理代理凭证失败: ...`. -/
def testProxyResolve (env : Env) (cfg : TestConnectionConfig) :
    Except ResolveError (Option ResolvedProxy) × List Act :=
  match truthyNat cfg.proxy_id with
  | none => (.ok none, [])
  | some pid =>
    match env.findProxyById pid with
    | none => (.error (.proxyNotFound pid), [.proxyLookup pid])
    | some rp =>
      match validateRawProxy env rp with
      | (.error e, t) => (.error (.wrappedProxy e), .proxyLookup pid :: t)
      | (.ok p, t) => (.ok (some p), .proxyLookup pid :: t)

/-- Credential/proxy construction part of `testUnsavedConnection`
(lines 356-424): builds the ephemeral `DecryptedConnectionDetails` with
sentinel id `-1` from caller-supplied plaintext. -/
def buildTestDetails (env : Env) (cfg : TestConnectionConfig) :
    Except ResolveError DecryptedConnectionDetails × List Act :=
  match testCredentials env cfg with
  | (.error e, t) => (.error e, t)
  | (.ok (pw, pk, pp), t1) =>
    match testProxyResolve env cfg with
    | (.error e, t2) => (.error e, t1 ++ t2)
    | (.ok prx, t2) =>
      (.ok { id := -1, name := "Test-" ++ cfg.host, host := cfg.host, port := cfg.port,
             username := cfg.username, auth_method := cfg.auth_method,
             password := pw, privateKey := pk, passphrase := pp, proxy := prx }, t1 ++ t2)

/-- Events the ssh client's transport may emit during the connection
phase. -/
inductive TransportEvent where
  | ready
  | errored (msg : String)
  | closed
deriving DecidableEq, Repr

/-- Possible responses of the HTTP proxy to the CONNECT request. -/
inductive HttpProxyResult where
  | connected (status : Nat)
  | reqError (msg : String)
  | timedOut
deriving DecidableEq, Repr

/-- Behaviour of the asynchronous outside world during one attempt:
the SOCKS5 / HTTP proxy outcome, the transport events emitted by the
ssh client after `connect` is called, the result of the last-connected
repository update and of `sshClient.end()`, the clock, and the
measured latency. -/
structure World where
  socksResult : Except String Unit
  httpResult : HttpProxyResult
  events : List TransportEvent
  updateResult : Except Unit Unit
  endResult : Except Unit Unit
  nowSeconds : Nat
  elapsedMs : Nat

/-- Listener/promise state of one `establishSshConnection` attempt:
which of the `ready`/`error`/`close` listeners are still attached, the
promise settlement (`none` while pending), and the action trace. -/
structure EstState where
  readyOn : Bool
  errorOn : Bool
  closeOn : Bool
  outcome : Option (Except SshError Unit)
  effects : List Act
deriving Repr

/-- `errorHandler` (lines 168-184): detach all listeners, call
`sshClient.end()` (a failure of which is only logged), then reject the
promise (a no-op if it is already settled). -/
def errorHandlerRun (w : World) (st : EstState) (e : SshError) : EstState :=
  let st1 := { st with readyOn := false, errorOn := false, closeOn := false,
                       effects := st.effects ++ [Act.clientEnd] }
  let st2 :=
    match w.endResult with
    | .ok _ => st1
    | .error _ => { st1 with effects := st1.effects ++ [Act.logEndError] }
  match st2.outcome with
  | none => { st2 with outcome := some (.error e),
                       effects := st2.effects ++ [Act.rejectedNotice] }
  | some _ => st2

/-- Process one transport event against the attached listeners:
`ready` runs the enhanced ready handler (detach everything, attempt the
last-connected update whose failure is only logged, resolve);
`error` runs `errorHandler` when attached; `close` runs `closeHandler`
(lines 186-193), which detaches all listeners but does not reject. -/
def stepEvent (w : World) (d : DecryptedConnectionDetails) (st : EstState) :
    TransportEvent → EstState
  | .ready =>
    if st.readyOn then
      let st1 := { st with readyOn := false, errorOn := false, closeOn := false,
                           effects := st.effects ++ [Act.updateLastConnected d.id w.nowSeconds] }
      let st2 :=
        match w.updateResult with
        | .ok _ => st1
        | .error _ => { st1 with effects := st1.effects ++ [Act.logUpdateError] }
      match st2.outcome with
      | none => { st2 with outcome := some (.ok ()),
                           effects := st2.effects ++ [Act.resolvedNotice] }
      | some _ => st2
    else st
  | .errored m =>
    if st.errorOn then errorHandlerRun w st (.transportError m) else st
  | .closed =>
    if st.closeOn then
      { st with readyOn := false, errorOn := false, closeOn := false }
    else st

/-- Fold the transport event sequence through `stepEvent`. -/
def runEvents (w : World) (d : DecryptedConnectionDetails) (st : EstState) :
    List TransportEvent → EstState
  | [] => st
  | e :: rest => runEvents w d (stepEvent w d st e) rest

/-- `establishSshConnection(connDetails, timeout)` (lines 133-279):
create the client and attach the three listeners, then either connect
directly, or first run the SOCKS5 / HTTP CONNECT proxy handshake.  Any
proxy failure is routed to `errorHandler`; an HTTP CONNECT response
with a status other than 200 destroys the socket first. -/
def establishSshConnection (w : World) (d : DecryptedConnectionDetails) : EstState :=
  let st0 : EstState := { readyOn := true, errorOn := true, closeOn := true,
                          outcome := none, effects := [Act.clientCreate] }
  match d.proxy with
  | none =>
      runEvents w d { st0 with effects := st0.effects ++ [Act.sshConnect] } w.events
  | some p =>
    match p.type with
    | .SOCKS5 =>
      let st1 := { st0 with effects := st0.effects ++ [Act.socksAttempt p.host p.port] }
      match w.socksResult with
      | .ok _ =>
          runEvents w d { st1 with effects := st1.effects ++ [Act.sshConnect] } w.events
      | .error m =>
          errorHandlerRun w st1 (.socksProxyFailed p.host p.port m)
    | .HTTP =>
      let st1 := { st0 with effects := st0.effects ++ [Act.httpConnectAttempt p.host p.port] }
      match w.httpResult with
      | .connected status =>
        if status = 200 then
          runEvents w d { st1 with effects := st1.effects ++ [Act.sshConnect] } w.events
        else
          errorHandlerRun w { st1 with effects := st1.effects ++ [Act.socketDestroy] }
            (.httpProxyStatus p.host p.port status)
      | .reqError m => errorHandlerRun w st1 (.httpProxyReqError p.host p.port m)
      | .timedOut =>
          errorHandlerRun w { st1 with effects := st1.effects ++ [Act.reqDestroy] }
            (.httpProxyTimeout p.host p.port)

/-- Error surfaced by the test entry points: either a resolution error
or an establishment error. -/
inductive TestError where
  | resolveErr (e : ResolveError)
  | sshErr (e : SshError)
deriving DecidableEq, Repr

/-- Shared tail of both test entry points: await
`establishSshConnection` and, in the `finally` block, call
`sshClient.end()` — but only when the local variable was assigned,
i.e. only when the establishment promise resolved successfully.  When
the establishment promise never settles the call never returns
(`none`). -/
def runTestAttempt (w : World) (d : DecryptedConnectionDetails) (t : List Act) :
    Option (Except TestError Nat) × List Act :=
  match (establishSshConnection w d).outcome with
  | none => (none, t ++ (establishSshConnection w d).effects)
  | some (.error e) =>
      (some (.error (.sshErr e)), t ++ (establishSshConnection w d).effects)
  | some (.ok _) =>
      (some (.ok w.elapsedMs), t ++ (establishSshConnection w d).effects ++ [Act.clientEnd])

/-- `testConnection(connectionId)` (lines 306-331). -/
def testConnection (env : Env) (w : World) (connectionId : Nat) :
    Option (Except TestError Nat) × List Act :=
  match getConnectionDetails env connectionId with
  | (.error e, t) => (some (.error (.resolveErr e)), t)
  | (.ok d, t) => runTestAttempt w d t

/-- `testUnsavedConnection(connectionConfig)` (lines 341-443). -/
def testUnsavedConnection (env : Env) (w : World) (cfg : TestConnectionConfig) :
    Option (Except TestError Nat) × List Act :=
  match buildTestDetails env cfg with
  | (.error e, t) => (some (.error (.resolveErr e)), t)
  | (.ok d, t) => runTestAttempt w d t

/-- Expected number of `sshClient.end()` calls given the settlement. -/
def endCountTarget : Option (Except SshError Unit) → Nat
  | some (.error _) => 1
  | _ => 0

/-- Invariant of one establishment attempt: once settled all listeners
are detached; `end` has been called exactly once iff the attempt
failed; a successful settlement recorded the last-connected update;
exactly one client was created. -/
def EstInv (w : World) (d : DecryptedConnectionDetails) (st : EstState) : Prop :=
  (∀ r, st.outcome = some r → st.readyOn = false ∧ st.errorOn = false ∧ st.closeOn = false) ∧
  countAct st.effects .clientEnd = endCountTarget st.outcome ∧
  (st.outcome = some (.ok ()) → Act.updateLastConnected d.id w.nowSeconds ∈ st.effects) ∧
  countAct st.effects .clientCreate = 1

def dNoProxy : DecryptedConnectionDetails := {
  id := 5, name := "srv", host := "example.com", port := 22,
  username := "root", auth_method := .password, password := some "pw",
  privateKey := none, passphrase := none, proxy := none }

def wBase : World := {
  socksResult := .ok (), httpResult := .connected 200, events := [],
  updateResult := .ok (), endResult := .ok (), nowSeconds := 1700000000, elapsedMs := 42 }

def wCloseThenError : World := { wBase with events := [.closed, .errored "read ECONNRESET"] }

def rawC2 : RawConnInfo := {
  id := 1, name := some "srv", host := some "h", port := some 22,
  username := some "u", auth_method := some .key, encrypted_password := none,
  encrypted_private_key := some "ENCK", encrypted_passphrase := none,
  ssh_key_id := some 7, proxy_db_id := none, proxy_name := none, proxy_type := none,
  proxy_host := none, proxy_port := none, proxy_username := none,
  proxy_encrypted_password := none }

def envC2 : Env := {
  findFullConnectionById := fun cid => if cid = 1 then some rawC2 else none,
  getDecryptedSshKeyById := fun k =>
    if k = 7 then some { privateKey := "PK", passphrase := some "PP" } else none,
  decrypt := fun c => .ok ("dec-" ++ c),
  findProxyById := fun _ => none }

def dC2res : DecryptedConnectionDetails := {
  id := 1, name := "srv", host := "h", port := 22, username := "u",
  auth_method := .key, password := none, privateKey := some "PK",
  passphrase := some "PP", proxy := none }

def pHttp : ResolvedProxy := {
  id := 3, name := "px", type := .HTTP, host := "proxy.local", port := 8080,
  username := none, password := none }

def dHttpProxy : DecryptedConnectionDetails := { dNoProxy with proxy := some pHttp }

def w403 : World := { wBase with httpResult := .connected 403 }

def wReadyUpdFail : World := { wBase with events := [.ready], updateResult := .error () }

def wReady : World := { wBase with events := [.ready] }

def cfgPwd : TestConnectionConfig := {
  host := "h2", port := 2222, username := "u2", auth_method := .password,
  password := some "secret", private_key := none, passphrase := none,
  ssh_key_id := none, proxy_id := none }

def tC4 : List Act := [.repoLookup 1, .vaultFetch 7, .clientCreate, .sshConnect,
  .updateLastConnected 1 1700000000, .resolvedNotice, .clientEnd]

def rawC7 : RawConnInfo := { rawC2 with ssh_key_id := none, encrypted_private_key := none }

def envC7 : Env := { envC2 with findFullConnectionById := fun cid => if cid = 1 then some rawC7 else none }

def rawC6 : RawConnInfo := { rawC2 with
  auth_method := some .password, ssh_key_id := none, encrypted_private_key := none,
  proxy_db_id := some 9, proxy_name := some "bad", proxy_type := some "FTP",
  proxy_host := some "ph", proxy_port := some 1080 }

def rpC6 : RawProxyInfo := {
  id := 9, name := some "bad", type := some "FTP", host := some "ph",
  port := some 1080, username := none, encrypted_password := none }

def envC6 : Env := { envC2 with
  findFullConnectionById := fun cid => if cid = 1 then some rawC6 else none,
  findProxyById := fun pid => if pid = 9 then some rpC6 else none }

def cfgC6 : TestConnectionConfig := { cfgPwd with proxy_id := some 9 }

def tC10 : List Act := [.clientCreate, .sshConnect,
  .updateLastConnected (-1) 1700000000, .resolvedNotice, .clientEnd]

lemma countAct_append (l1 l2 : List Act) (a : Act) :
    countAct (l1 ++ l2) a = countAct l1 a + countAct l2 a := by
  induction l1 with
  | nil => simp [countAct]
  | cons b l ih => simp [countAct, ih]; omega

lemma countAct_eq_zero (l : List Act) (a : Act) (h : ∀ b ∈ l, b ≠ a) :
    countAct l a = 0 := by
  induction l with
  | nil => simp [countAct]
  | cons b l ih =>
    simp only [countAct]
    rw [if_neg (h b (by simp))]
    simp [ih (fun b hb => h b (by simp [hb]))]

lemma resolveCredentials_readonly (env : Env) (raw : RawConnInfo) (am : AuthMethod) :
    ∀ a ∈ (resolveCredentials env raw am).2, a.isReadOnlyLookup = true := by
  unfold resolveCredentials
  cases am <;> (repeat' split) <;> simp_all [Act.isReadOnlyLookup]

lemma resolveProxyOfConn_readonly (env : Env) (raw : RawConnInfo) :
    ∀ a ∈ (resolveProxyOfConn env raw).2, a.isReadOnlyLookup = true := by
  unfold resolveProxyOfConn
  repeat' split
  all_goals simp_all [Act.isReadOnlyLookup]

lemma resolveProxyOfConn_no_inline (env : Env) (raw : RawConnInfo) (c : String) :
    Act.decryptInlineKey c ∉ (resolveProxyOfConn env raw).2 := by
  unfold resolveProxyOfConn
  repeat' split
  all_goals simp

lemma resolveBody_readonly (env : Env) (raw : RawConnInfo) :
    ∀ a ∈ (resolveBody env raw).2, a.isReadOnlyLookup = true := by
  unfold resolveBody
  split
  · intro a ha; simp at ha
  · split
    · rename_i heq1
      intro a ha
      exact resolveCredentials_readonly env raw _ a (by rw [heq1]; exact ha)
    · rename_i heq1
      split
      · rename_i heq2
        intro a ha
        rcases List.mem_append.mp ha with h | h
        · exact resolveCredentials_readonly env raw _ a (by rw [heq1]; exact h)
        · exact resolveProxyOfConn_readonly env raw a (by rw [heq2]; exact h)
      · rename_i heq2
        intro a ha
        rcases List.mem_append.mp ha with h | h
        · exact resolveCredentials_readonly env raw _ a (by rw [heq1]; exact h)
        · exact resolveProxyOfConn_readonly env raw a (by rw [heq2]; exact h)

lemma getConnectionDetails_readonly (env : Env) (cid : Nat) :
    ∀ a ∈ (getConnectionDetails env cid).2, a.isReadOnlyLookup = true := by
  unfold getConnectionDetails
  split
  · intro a ha
    simp only [List.mem_singleton] at ha
    simp [ha, Act.isReadOnlyLookup]
  · split
    · rename_i heq
      intro a ha
      rcases List.mem_cons.mp ha with h | h
      · simp [h, Act.isReadOnlyLookup]
      · exact resolveBody_readonly env _ a (by rw [heq]; exact h)
    · rename_i heq
      intro a ha
      rcases List.mem_cons.mp ha with h | h
      · simp [h, Act.isReadOnlyLookup]
      · exact resolveBody_readonly env _ a (by rw [heq]; exact h)

lemma testCredentials_readonly (env : Env) (cfg : TestConnectionConfig) :
    ∀ a ∈ (testCredentials env cfg).2, a.isReadOnlyLookup = true := by
  unfold testCredentials
  repeat' split
  all_goals simp_all [Act.isReadOnlyLookup]

lemma validateRawProxy_readonly (env : Env) (rp : RawProxyInfo) :
    ∀ a ∈ (validateRawProxy env rp).2, a.isReadOnlyLookup = true := by
  unfold validateRawProxy
  repeat' split
  all_goals simp_all [Act.isReadOnlyLookup]

lemma testProxyResolve_readonly (env : Env) (cfg : TestConnectionConfig) :
    ∀ a ∈ (testProxyResolve env cfg).2, a.isReadOnlyLookup = true := by
  unfold testProxyResolve
  split
  · simp
  · split
    · intro a ha
      simp only [List.mem_singleton] at ha
      simp [ha, Act.isReadOnlyLookup]
    · split <;>
        (rename_i heq
         intro a ha
         rcases List.mem_cons.mp ha with h | h
         · simp [h, Act.isReadOnlyLookup]
         · exact validateRawProxy_readonly env _ a (by rw [heq]; exact h))

lemma buildTestDetails_readonly (env : Env) (cfg : TestConnectionConfig) :
    ∀ a ∈ (buildTestDetails env cfg).2, a.isReadOnlyLookup = true := by
  unfold buildTestDetails
  split
  · rename_i heq1
    intro a ha
    exact testCredentials_readonly env cfg a (by rw [heq1]; exact ha)
  · rename_i heq1
    split <;>
      (rename_i heq2
       intro a ha
       rcases List.mem_append.mp ha with h | h
       · exact testCredentials_readonly env cfg a (by rw [heq1]; exact h)
       · exact testProxyResolve_readonly env cfg a (by rw [heq2]; exact h))

lemma errorHandlerRun_of_none (w : World) (st : EstState) (e : SshError)
    (h : st.outcome = none) :
    (errorHandlerRun w st e).outcome = some (.error e) ∧
    (errorHandlerRun w st e).readyOn = false ∧
    (errorHandlerRun w st e).errorOn = false ∧
    (errorHandlerRun w st e).closeOn = false ∧
    countAct (errorHandlerRun w st e).effects .clientEnd = countAct st.effects .clientEnd + 1 ∧
    countAct (errorHandlerRun w st e).effects .clientCreate = countAct st.effects .clientCreate := by
  unfold errorHandlerRun
  cases hw : w.endResult <;>
    simp [hw, h, countAct_append, countAct]

lemma stepEvent_frozen (w : World) (d : DecryptedConnectionDetails) (st : EstState)
    (e : TransportEvent)
    (h : st.readyOn = false ∧ st.errorOn = false ∧ st.closeOn = false) :
    stepEvent w d st e = st := by
  cases e <;> simp [stepEvent, h.1, h.2.1, h.2.2]

lemma runEvents_frozen (w : World) (d : DecryptedConnectionDetails) (st : EstState)
    (evs : List TransportEvent)
    (h : st.readyOn = false ∧ st.errorOn = false ∧ st.closeOn = false) :
    runEvents w d st evs = st := by
  induction evs with
  | nil => rfl
  | cons e rest ih => simp [runEvents, stepEvent_frozen w d st e h, ih]

lemma stepEvent_ready_of_pending (w : World) (d : DecryptedConnectionDetails) (st : EstState)
    (hr : st.readyOn = true) (ho : st.outcome = none) :
    ∃ extra : List Act,
      stepEvent w d st .ready =
        { readyOn := false, errorOn := false, closeOn := false, outcome := some (.ok ()),
          effects := st.effects ++ [Act.updateLastConnected d.id w.nowSeconds] ++ extra
                       ++ [Act.resolvedNotice] } := by
  cases hw : w.updateResult with
  | ok u => exact ⟨[], by simp [stepEvent, hr, hw, ho]⟩
  | error u => exact ⟨[Act.logUpdateError], by simp [stepEvent, hr, hw, ho]⟩

lemma stepEvent_pres (w : World) (d : DecryptedConnectionDetails) (st : EstState)
    (e : TransportEvent) (h : EstInv w d st) : EstInv w d (stepEvent w d st e) := by
  obtain ⟨h1, h2, h3, h4⟩ := h
  cases e with
  | ready =>
    by_cases hr : st.readyOn
    · have ho : st.outcome = none := by
        cases hst : st.outcome with
        | none => rfl
        | some r => exact absurd (h1 r hst).1 (by simp [hr])
      rw [ho] at h2
      cases hw : w.updateResult with
      | ok u =>
        refine ⟨by simp [stepEvent, hr, hw, ho], ?_, ?_, ?_⟩
        · simp [stepEvent, hr, hw, ho, countAct_append, countAct, endCountTarget, h2]
        · intro _
          simp [stepEvent, hr, hw, ho]
        · simp [stepEvent, hr, hw, ho, countAct_append, countAct, h4]
      | error u =>
        refine ⟨by simp [stepEvent, hr, hw, ho], ?_, ?_, ?_⟩
        · simp [stepEvent, hr, hw, ho, countAct_append, countAct, endCountTarget, h2]
        · intro _
          simp [stepEvent, hr, hw, ho]
        · simp [stepEvent, hr, hw, ho, countAct_append, countAct, h4]
    · simp only [stepEvent, hr, if_false]
      exact ⟨h1, h2, h3, h4⟩
  | errored m =>
    by_cases he : st.errorOn
    · have ho : st.outcome = none := by
        cases hst : st.outcome with
        | none => rfl
        | some r => exact absurd (h1 r hst).2.1 (by simp [he])
      rw [ho] at h2
      simp only [stepEvent, he, if_true]
      obtain ⟨o1, f1, f2, f3, c1, c2⟩ :=
        errorHandlerRun_of_none w st (.transportError m) ho
      refine ⟨?_, ?_, ?_, ?_⟩
      · intro r _; exact ⟨f1, f2, f3⟩
      · rw [c1, h2, o1]; simp [endCountTarget]
      · intro hok; rw [o1] at hok; simp at hok
      · rw [c2, h4]
    · simp only [stepEvent, he, if_false]
      exact ⟨h1, h2, h3, h4⟩
  | closed =>
    by_cases hc : st.closeOn
    · simp only [stepEvent, hc, if_true]
      exact ⟨fun r _ => ⟨rfl, rfl, rfl⟩, h2, h3, h4⟩
    · simp only [stepEvent, hc, if_false]
      exact ⟨h1, h2, h3, h4⟩

lemma runEvents_pres (w : World) (d : DecryptedConnectionDetails)
    (evs : List TransportEvent) (st : EstState) (h : EstInv w d st) :
    EstInv w d (runEvents w d st evs) := by
  induction evs generalizing st with
  | nil => exact h
  | cons e rest ih => exact ih _ (stepEvent_pres w d st e h)

lemma estInv_start (w : World) (d : DecryptedConnectionDetails) (ex : List Act)
    (hend : Act.clientEnd ∉ ex) (hcr : Act.clientCreate ∉ ex) :
    EstInv w d { readyOn := true, errorOn := true, closeOn := true, outcome := none,
                 effects := Act.clientCreate :: ex } := by
  refine ⟨by simp, ?_, by simp, ?_⟩
  · simp [countAct, endCountTarget, countAct_eq_zero ex Act.clientEnd
      (fun b hb hbe => hend (hbe ▸ hb))]
  · simp [countAct, countAct_eq_zero ex Act.clientCreate
      (fun b hb hbe => hcr (hbe ▸ hb))]

lemma errorHandlerRun_inv (w : World) (d : DecryptedConnectionDetails) (st : EstState)
    (e : SshError) (ho : st.outcome = none)
    (hce : countAct st.effects .clientEnd = 0)
    (hcc : countAct st.effects .clientCreate = 1) :
    EstInv w d (errorHandlerRun w st e) ∧
    (errorHandlerRun w st e).outcome = some (.error e) := by
  obtain ⟨o1, f1, f2, f3, c1, c2⟩ := errorHandlerRun_of_none w st e ho
  refine ⟨⟨fun r _ => ⟨f1, f2, f3⟩, ?_, ?_, ?_⟩, o1⟩
  · rw [c1, hce, o1]; simp [endCountTarget]
  · intro hok; rw [o1] at hok; simp at hok
  · rw [c2, hcc]

lemma establish_inv (w : World) (d : DecryptedConnectionDetails) :
    EstInv w d (establishSshConnection w d) := by
  unfold establishSshConnection
  split
  · exact runEvents_pres w d w.events _ (estInv_start w d [.sshConnect] (by simp) (by simp))
  · rename_i p hp
    cases hpt : p.type with
    | SOCKS5 =>
      simp only [hpt]
      cases hs : w.socksResult with
      | ok u =>
        exact runEvents_pres w d w.events _
          (estInv_start w d [.socksAttempt p.host p.port, .sshConnect] (by simp) (by simp))
      | error m =>
        exact (errorHandlerRun_inv w d _ _ rfl
          (by simp [countAct]) (by simp [countAct])).1
    | HTTP =>
      simp only [hpt]
      cases hh : w.httpResult with
      | connected status =>
        by_cases h200 : status = 200
        · simp only [h200, if_true]
          exact runEvents_pres w d w.events _
            (estInv_start w d [.httpConnectAttempt p.host p.port, .sshConnect] (by simp) (by simp))
        · simp only [h200, if_false]
          exact (errorHandlerRun_inv w d _ _ rfl
            (by simp [countAct]) (by simp [countAct])).1
      | reqError m =>
        exact (errorHandlerRun_inv w d _ _ rfl
          (by simp [countAct]) (by simp [countAct])).1
      | timedOut =>
        exact (errorHandlerRun_inv w d _ _ rfl
          (by simp [countAct]) (by simp [countAct])).1

lemma resolveCredentials_exclusive (env : Env) (raw : RawConnInfo) (am : AuthMethod)
    (pw pk pp : Option String) (t : List Act)
    (h : resolveCredentials env raw am = (.ok (pw, pk, pp), t)) :
    (am = .password → pk = none ∧ pp = none) ∧ (am = .key → pw = none) := by
  unfold resolveCredentials at h
  cases am with
  | password =>
    refine ⟨fun _ => ?_, fun hk => absurd hk (by decide)⟩
    repeat' split at h
    all_goals injection h with hfst hsnd
    all_goals first
      | contradiction
      | (injection hfst with htrip
         injection htrip with hpw hrest
         injection hrest with hpk hpp
         subst hpk
         subst hpp
         exact ⟨rfl, rfl⟩)
  | key =>
    refine ⟨fun hk => absurd hk (by decide), fun _ => ?_⟩
    repeat' split at h
    all_goals injection h with hfst hsnd
    all_goals first
      | contradiction
      | (injection hfst with htrip
         injection htrip with hpw hrest
         subst hpw
         rfl)

lemma testCredentials_exclusive (env : Env) (cfg : TestConnectionConfig)
    (pw pk pp : Option String) (t : List Act)
    (h : testCredentials env cfg = (.ok (pw, pk, pp), t)) :
    (cfg.auth_method = .password → pk = none ∧ pp = none) ∧
    (cfg.auth_method = .key → pw = none) := by
  unfold testCredentials at h
  cases ham : cfg.auth_method with
  | password =>
    rw [ham] at h
    refine ⟨fun _ => ?_, fun hk => absurd hk (by decide)⟩
    injection h with hfst hsnd
    injection hfst with htrip
    injection htrip with hpw hrest
    injection hrest with hpk hpp
    subst hpk
    subst hpp
    exact ⟨rfl, rfl⟩
  | key =>
    rw [ham] at h
    refine ⟨fun hk => absurd hk (by decide), fun _ => ?_⟩
    repeat' split at h
    all_goals injection h with hfst hsnd
    all_goals first
      | contradiction
      | (injection hfst with htrip
         injection htrip with hpw hrest
         subst hpw
         rfl)

lemma resolveBody_ok_fields (env : Env) (raw : RawConnInfo)
    (d : DecryptedConnectionDetails) (t : List Act)
    (h : resolveBody env raw = (.ok d, t)) :
    ∃ pw pk pp t1, resolveCredentials env raw d.auth_method = (.ok (pw, pk, pp), t1) ∧
      d.password = pw ∧ d.privateKey = pk ∧ d.passphrase = pp := by
  unfold resolveBody at h
  split at h
  · simp at h
  · split at h
    · simp at h
    · rename_i hcred
      split at h
      · simp at h
      · simp only [Prod.mk.injEq, Except.ok.injEq] at h
        obtain ⟨hd, ht⟩ := h
        subst hd
        exact ⟨_, _, _, _, hcred, rfl, rfl, rfl⟩

lemma getConnectionDetails_ok_inv (env : Env) (cid : Nat)
    (d : DecryptedConnectionDetails) (t : List Act)
    (h : getConnectionDetails env cid = (.ok d, t)) :
    ∃ raw t', env.findFullConnectionById cid = some raw ∧
      resolveBody env raw = (.ok d, t') := by
  unfold getConnectionDetails at h
  split at h
  · simp at h
  · rename_i raw hfind
    split at h
    · rename_i heq
      simp only [Prod.mk.injEq, Except.ok.injEq] at h
      obtain ⟨hd, ht⟩ := h
      subst hd
      exact ⟨raw, _, hfind, heq⟩
    · simp at h

lemma buildTestDetails_ok_fields (env : Env) (cfg : TestConnectionConfig)
    (d : DecryptedConnectionDetails) (t : List Act)
    (h : buildTestDetails env cfg = (.ok d, t)) :
    d.id = -1 ∧ d.auth_method = cfg.auth_method ∧
    ∃ pw pk pp t1, testCredentials env cfg = (.ok (pw, pk, pp), t1) ∧
      d.password = pw ∧ d.privateKey = pk ∧ d.passphrase = pp := by
  unfold buildTestDetails at h
  split at h
  · simp at h
  · rename_i hcred
    split at h
    · simp at h
    · simp only [Prod.mk.injEq, Except.ok.injEq] at h
      obtain ⟨hd, ht⟩ := h
      subst hd
      exact ⟨rfl, rfl, _, _, _, _, hcred, rfl, rfl, rfl⟩

lemma readonly_no_end_create (l : List Act) (h : ∀ a ∈ l, a.isReadOnlyLookup = true) :
    countAct l .clientEnd = 0 ∧ countAct l .clientCreate = 0 := by
  constructor <;>
  · refine countAct_eq_zero l _ (fun b hb hbe => ?_)
    have hro := h b hb
    subst hbe
    simp [Act.isReadOnlyLookup] at hro

lemma runTestAttempt_end_eq_create (w : World) (d : DecryptedConnectionDetails)
    (t0 : List Act) (h0e : countAct t0 .clientEnd = 0) (h0c : countAct t0 .clientCreate = 0) :
    ∀ r t, runTestAttempt w d t0 = (some r, t) →
      countAct t .clientEnd = 1 ∧ countAct t .clientCreate = 1 := by
  intro r t h
  obtain ⟨_, h2, _, h4⟩ := establish_inv w d
  unfold runTestAttempt at h
  split at h
  · simp at h
  · rename_i e heq
    injection h with h1 hsnd
    rw [heq] at h2
    subst hsnd
    constructor
    · rw [countAct_append, h0e, h2]; rfl
    · rw [countAct_append, h0c, h4]
  · rename_i u heq
    injection h with h1 hsnd
    rw [heq] at h2
    subst hsnd
    constructor
    · rw [countAct_append, countAct_append, h0e, h2]; rfl
    · rw [countAct_append, countAct_append, h0c, h4]; rfl

lemma readonly_not_network (a : Act) (h : a.isReadOnlyLookup = true) :
    a.isNetworkOp = false ∧ a ≠ .clientCreate := by
  cases a <;> simp_all [Act.isReadOnlyLookup, Act.isNetworkOp]

/-- Claim C1: evaluation of the embedded `establishSshConnection` at a
direct (no-proxy) attempt whose transport emits `close` and then
`error` before `ready`: the close handler detaches every listener
(including the error handler) without rejecting, so the attempt settles
neither successfully nor unsuccessfully — no failure notification ever
fires, contradicting the claimed exactly-one-outcome behaviour. -/
theorem establish_close_then_error_no_notification :
    (establishSshConnection wCloseThenError dNoProxy).outcome = none ∧
    countAct (establishSshConnection wCloseThenError dNoProxy).effects .rejectedNotice = 0 ∧
    countAct (establishSshConnection wCloseThenError dNoProxy).effects .resolvedNotice = 0 ∧
    countAct (establishSshConnection wCloseThenError dNoProxy).effects .clientEnd = 0 :=
  ⟨rfl, rfl, rfl, rfl⟩

/-- Claim C2: for a persisted `key`-mode record carrying both a truthy
stored-key reference and a truthy inline encrypted key, resolution
fetches the key-vault entry: the inline ciphertext is never decrypted,
a successful resolution carries the vault's key material, and a
dangling reference fails with the (wrapped) key-not-found error. -/
theorem getConnectionDetails_storedKey_precedence
    (env : Env) (cid : Nat) (raw : RawConnInfo) (kid : Nat) (epk : String)
    (nm hst usr : String) (prt : Nat)
    (hfind : env.findFullConnectionById cid = some raw)
    (hnm : raw.name = some nm) (hh : raw.host = some hst)
    (hprt : raw.port = some prt) (hu : raw.username = some usr)
    (ham : raw.auth_method = some .key)
    (hkid : truthyNat raw.ssh_key_id = some kid)
    (hepk : truthyStr raw.encrypted_private_key = some epk) :
    (∀ c, Act.decryptInlineKey c ∉ (getConnectionDetails env cid).2) ∧
    (∀ k, env.getDecryptedSshKeyById kid = some k →
       ∀ d t, getConnectionDetails env cid = (.ok d, t) →
         d.privateKey = some k.privateKey ∧ d.passphrase = k.passphrase) ∧
    (env.getDecryptedSshKeyById kid = none →
       getConnectionDetails env cid =
         (.error (.wrapped (.keyNotFound kid)), [.repoLookup cid, .vaultFetch kid])) := by
  have hrf : requiredFields raw = .ok (nm, hst, prt, usr, .key) := by
    unfold requiredFields
    rw [hnm, hh, hprt, hu, ham]
  refine ⟨?_, ?_, ?_⟩
  · intro c
    simp only [getConnectionDetails, hfind, resolveBody, hrf, resolveCredentials, hkid]
    cases hvk : env.getDecryptedSshKeyById kid with
    | none => simp
    | some k =>
      rcases hpr : resolveProxyOfConn env raw with ⟨res, t2⟩
      cases res with
      | error e =>
        simp only [hpr]
        intro hmem
        simp only [List.mem_cons, List.mem_append, List.mem_singleton] at hmem
        rcases hmem with h | h | h
        · exact absurd h (by simp)
        · exact absurd h (by simp)
        · exact resolveProxyOfConn_no_inline env raw c (by rw [hpr]; exact h)
      | ok prx =>
        simp only [hpr]
        intro hmem
        simp only [List.mem_cons, List.mem_append, List.mem_singleton] at hmem
        rcases hmem with h | h | h
        · exact absurd h (by simp)
        · exact absurd h (by simp)
        · exact resolveProxyOfConn_no_inline env raw c (by rw [hpr]; exact h)
  · intro k hvk d t heq
    simp only [getConnectionDetails, hfind, resolveBody, hrf, resolveCredentials, hkid,
      hvk] at heq
    rcases hpr : resolveProxyOfConn env raw with ⟨res, t2⟩
    rw [hpr] at heq
    cases res with
    | error e => simp at heq
    | ok prx =>
      simp only [Prod.mk.injEq, Except.ok.injEq] at heq
      obtain ⟨hd, ht⟩ := heq
      subst hd
      exact ⟨rfl, rfl⟩
  · intro hvk
    simp only [getConnectionDetails, hfind, resolveBody, hrf, resolveCredentials, hkid, hvk]

/-- Witness for C2: on a concrete store whose connection 1 has both
`ssh_key_id = 7` and an inline encrypted key, the resolved credentials
are the vault entry's. -/
theorem getConnectionDetails_storedKey_precedence_witness :
    dC2res.privateKey = some "PK" ∧ dC2res.passphrase = some "PP" :=
  (getConnectionDetails_storedKey_precedence envC2 1 rawC2 7 "ENCK" "srv" "h" "u" 22
    rfl rfl rfl rfl rfl rfl rfl rfl).2.1 ⟨"PK", some "PP"⟩ rfl dC2res
    [.repoLookup 1, .vaultFetch 7] rfl

/-- Claim C3: an HTTP CONNECT response with any status other than 200
fails the attempt with the proxy-status error (whose message contains
the status code), destroys the partially-established socket before the
failure notification fires, and never proceeds to the ssh connect. -/
theorem establish_http_non200_fails
    (w : World) (d : DecryptedConnectionDetails) (p : ResolvedProxy) (s : Nat)
    (hp : d.proxy = some p) (ht : p.type = .HTTP)
    (hres : w.httpResult = .connected s) (hs : s ≠ 200) :
    (establishSshConnection w d).outcome =
        some (.error (.httpProxyStatus p.host p.port s)) ∧
    (∃ mid, (establishSshConnection w d).effects =
        [Act.clientCreate, Act.httpConnectAttempt p.host p.port, Act.socketDestroy]
          ++ mid ++ [Act.rejectedNotice] ∧ Act.sshConnect ∉ mid) ∧
    countAct (establishSshConnection w d).effects .sshConnect = 0 ∧
    (∃ a b, SshError.message (.httpProxyStatus p.host p.port s) = a ++ Nat.repr s ++ b) := by
  cases hw : w.endResult with
  | ok u =>
    simp only [establishSshConnection, hp, ht, hres, if_neg hs, errorHandlerRun, hw]
    refine ⟨by trivial, ⟨[Act.clientEnd], by trivial, by simp⟩, by trivial,
      ⟨"HTTP 代理 " ++ p.host ++ ":" ++ Nat.repr p.port ++ " 连接失败 (状态码: ", ")", rfl⟩⟩
  | error u =>
    simp only [establishSshConnection, hp, ht, hres, if_neg hs, errorHandlerRun, hw]
    refine ⟨by trivial, ⟨[Act.clientEnd, Act.logEndError], by trivial, by simp⟩, by trivial,
      ⟨"HTTP 代理 " ++ p.host ++ ":" ++ Nat.repr p.port ++ " 连接失败 (状态码: ", ")", rfl⟩⟩

/-- Witness for C3: an HTTP proxy answering status 403 rejects the
attempt with the status-carrying proxy error. -/
theorem establish_http_non200_fails_witness :
    (establishSshConnection w403 dHttpProxy).outcome =
      some (.error (.httpProxyStatus "proxy.local" 8080 403)) :=
  (establish_http_non200_fails w403 dHttpProxy pHttp 403 rfl rfl rfl (by decide)).1

/-- Claim C5: when the transport reports `ready`, the attempt resolves
successfully and records the last-connected update attempt, regardless
of whether that repository update succeeds or fails — the update can
never turn the establishment into a rejection. -/
theorem establish_ready_resolves_despite_update_failure
    (w : World) (d : DecryptedConnectionDetails) (rest : List TransportEvent)
    (hp : d.proxy = none) (hev : w.events = .ready :: rest) :
    (establishSshConnection w d).outcome = some (.ok ()) ∧
    Act.updateLastConnected d.id w.nowSeconds ∈ (establishSshConnection w d).effects := by
  unfold establishSshConnection
  simp only [hp, hev, runEvents]
  obtain ⟨extra, hx⟩ := stepEvent_ready_of_pending w d
    { readyOn := true, errorOn := true, closeOn := true, outcome := none,
      effects := [Act.clientCreate] ++ [Act.sshConnect] } rfl rfl
  rw [hx, runEvents_frozen w d _ rest (by simp)]
  exact ⟨rfl, by simp⟩

/-- Witness for C5: with a failing last-connected update, a `ready`
transport still resolves the attempt successfully and the update was
attempted. -/
theorem establish_ready_resolves_despite_update_failure_witness :
    (establishSshConnection wReadyUpdFail dNoProxy).outcome = some (.ok ()) ∧
    Act.updateLastConnected 5 1700000000 ∈ (establishSshConnection wReadyUpdFail dNoProxy).effects :=
  establish_ready_resolves_despite_update_failure wReadyUpdFail dNoProxy [] rfl rfl

/-- Claim C4: every returning call of either test entry point releases
exactly as many transports as it created (one when establishment was
started, zero when resolution already failed): `end` fires exactly once
per created client, through the failure path inside establishment or
the unconditional cleanup on success. -/
theorem test_calls_release_transport_once
    (env : Env) (w : World) (cid : Nat) (cfg : TestConnectionConfig) :
    (∀ r t, testConnection env w cid = (some r, t) →
       countAct t .clientEnd = countAct t .clientCreate) ∧
    (∀ r t, testUnsavedConnection env w cfg = (some r, t) →
       countAct t .clientEnd = countAct t .clientCreate) := by
  constructor
  · intro r t h
    unfold testConnection at h
    split at h
    · rename_i e t' heq
      injection h with h1 hsnd
      subst hsnd
      have hro : ∀ a ∈ t', a.isReadOnlyLookup = true :=
        fun a ha => getConnectionDetails_readonly env cid a (by rw [heq]; exact ha)
      obtain ⟨he, hc⟩ := readonly_no_end_create t' hro
      rw [he, hc]
    · rename_i d t' heq
      have hro : ∀ a ∈ t', a.isReadOnlyLookup = true :=
        fun a ha => getConnectionDetails_readonly env cid a (by rw [heq]; exact ha)
      obtain ⟨he, hc⟩ := readonly_no_end_create t' hro
      obtain ⟨h1, h2⟩ := runTestAttempt_end_eq_create w d t' he hc r t h
      rw [h1, h2]
  · intro r t h
    unfold testUnsavedConnection at h
    split at h
    · rename_i e t' heq
      injection h with h1 hsnd
      subst hsnd
      have hro : ∀ a ∈ t', a.isReadOnlyLookup = true :=
        fun a ha => buildTestDetails_readonly env cfg a (by rw [heq]; exact ha)
      obtain ⟨he, hc⟩ := readonly_no_end_create t' hro
      rw [he, hc]
    · rename_i d t' heq
      have hro : ∀ a ∈ t', a.isReadOnlyLookup = true :=
        fun a ha => buildTestDetails_readonly env cfg a (by rw [heq]; exact ha)
      obtain ⟨he, hc⟩ := readonly_no_end_create t' hro
      obtain ⟨h1, h2⟩ := runTestAttempt_end_eq_create w d t' he hc r t h
      rw [h1, h2]

/-- Witness for C4: a successful probe of connection 1 produced exactly
one `end` for its one created client. -/
theorem test_calls_release_transport_once_witness :
    countAct tC4 .clientEnd = countAct tC4 .clientCreate :=
  (test_calls_release_transport_once envC2 wReady 1 cfgPwd).1 (.ok 42) tC4 rfl

/-- Claim C7: a persisted `key`-mode record with neither a truthy
stored-key reference nor a truthy inline encrypted key resolves
successfully (warning-only condition) with empty key credentials. -/
theorem key_mode_without_key_resolves_empty
    (env : Env) (cid : Nat) (raw : RawConnInfo)
    (nm hst usr : String) (prt : Nat)
    (hfind : env.findFullConnectionById cid = some raw)
    (hnm : raw.name = some nm) (hh : raw.host = some hst)
    (hprt : raw.port = some prt) (hu : raw.username = some usr)
    (ham : raw.auth_method = some .key)
    (hnokid : truthyNat raw.ssh_key_id = none)
    (hnokey : truthyStr raw.encrypted_private_key = none)
    (hnoproxy : truthyNat raw.proxy_db_id = none) :
    getConnectionDetails env cid =
      (.ok { id := raw.id, name := nm, host := hst, port := prt, username := usr,
             auth_method := .key, password := none, privateKey := none, passphrase := none,
             proxy := none }, [.repoLookup cid]) := by
  have hrf : requiredFields raw = .ok (nm, hst, prt, usr, .key) := by
    unfold requiredFields
    rw [hnm, hh, hprt, hu, ham]
  simp only [getConnectionDetails, hfind, resolveBody, hrf, resolveCredentials, hnokid,
    hnokey, resolveProxyOfConn, hnoproxy]
  rfl

/-- Witness for C7: connection 1 of a store where the record has key
mode but no key material resolves with empty credentials. -/
theorem key_mode_without_key_resolves_empty_witness :
    getConnectionDetails envC7 1 =
      (.ok { id := 1, name := "srv", host := "h", port := 22, username := "u",
             auth_method := .key, password := none, privateKey := none, passphrase := none,
             proxy := none }, [.repoLookup 1]) :=
  key_mode_without_key_resolves_empty envC7 1 rawC7 "srv" "h" "u" 22
    rfl rfl rfl rfl rfl rfl rfl rfl rfl

/-- Claim C9: credential resolution is deterministic — two calls with
the same oracles yield the same result — and its action trace consists
solely of read-only lookups and decryptions (no state mutation, no
network operation, no repository write). -/
theorem getConnectionDetails_deterministic_readonly (env : Env) (cid : Nat) :
    getConnectionDetails env cid = getConnectionDetails env cid ∧
    ∀ a ∈ (getConnectionDetails env cid).2, a.isReadOnlyLookup = true :=
  ⟨rfl, getConnectionDetails_readonly env cid⟩

/-- Witness for C9: instantiated at a concrete store and connection. -/
theorem getConnectionDetails_deterministic_readonly_witness :
    getConnectionDetails envC2 1 = getConnectionDetails envC2 1 ∧
    (Act.repoLookup 1).isReadOnlyLookup = true :=
  ⟨(getConnectionDetails_deterministic_readonly envC2 1).1,
   (getConnectionDetails_deterministic_readonly envC2 1).2 (.repoLookup 1) (by decide)⟩

/-- Claim C6: a resolved proxy record whose stored type is neither
`SOCKS5` nor `HTTP` makes resolution fail with the invalid-type error —
on the persisted path wrapped by the credential-processing catch, on
the inline-test path wrapped by the proxy-credential catch — and the
whole call performs no network operation and creates no client/socket:
no CONNECT or SOCKS handshake is ever started. -/
theorem invalid_proxy_type_fails_before_network
    (env : Env) (cid : Nat) (raw : RawConnInfo)
    (nm hst usr : String) (prt : Nat) (am : AuthMethod)
    (creds : Option String × Option String × Option String) (ts : String)
    (pid : Nat) (pnm phost : String) (pprt : Nat)
    (w : World) (cfg : TestConnectionConfig)
    (creds2 : Option String × Option String × Option String) (ts2 : String)
    (pid2 : Nat) (rp : RawProxyInfo) (pnm2 phost2 : String) (pprt2 : Nat)
    (hfind : env.findFullConnectionById cid = some raw)
    (hrf : requiredFields raw = .ok (nm, hst, prt, usr, am))
    (hcred : (resolveCredentials env raw am).1 = .ok creds)
    (hpid : truthyNat raw.proxy_db_id = some pid)
    (hpn : raw.proxy_name = some pnm)
    (hpt : raw.proxy_type = some ts)
    (hph : raw.proxy_host = some phost)
    (hpp : raw.proxy_port = some pprt)
    (hbad : parseProxyType ts = none)
    (hc2 : (testCredentials env cfg).1 = .ok creds2)
    (hpid2 : truthyNat cfg.proxy_id = some pid2)
    (hrp : env.findProxyById pid2 = some rp)
    (hpn2 : rp.name = some pnm2)
    (hpt2 : rp.type = some ts2)
    (hph2 : rp.host = some phost2)
    (hpp2 : rp.port = some pprt2)
    (hbad2 : parseProxyType ts2 = none) :
    ((getConnectionDetails env cid).1 = .error (.wrapped (.invalidProxyType ts)) ∧
     ∀ a ∈ (getConnectionDetails env cid).2, a.isNetworkOp = false) ∧
    ((testUnsavedConnection env w cfg).1 =
        some (.error (.resolveErr (.wrappedProxy (.invalidProxyType ts2)))) ∧
     ∀ a ∈ (testUnsavedConnection env w cfg).2,
       a.isNetworkOp = false ∧ a ≠ .clientCreate) := by
  rcases hcr : resolveCredentials env raw am with ⟨cres, t1⟩
  rw [hcr] at hcred
  simp only at hcred
  subst hcred
  obtain ⟨pw, pk, pp⟩ := creds
  have hpx : resolveProxyOfConn env raw = (.error (.invalidProxyType ts), []) := by
    simp only [resolveProxyOfConn, hpid, hpn, hpt, hph, hpp, hbad]
  rcases hcr2 : testCredentials env cfg with ⟨cres2, t1x⟩
  rw [hcr2] at hc2
  simp only at hc2
  subst hc2
  obtain ⟨pw2, pk2, pp2⟩ := creds2
  have hval : validateRawProxy env rp = (.error (.invalidProxyType ts2), []) := by
    simp only [validateRawProxy, hpn2, hpt2, hph2, hpp2, hbad2]
  have hpx2 : testProxyResolve env cfg =
      (.error (.wrappedProxy (.invalidProxyType ts2)), [.proxyLookup pid2]) := by
    simp only [testProxyResolve, hpid2, hrp, hval]
  have hbuild : buildTestDetails env cfg =
      (.error (.wrappedProxy (.invalidProxyType ts2)), t1x ++ [.proxyLookup pid2]) := by
    simp only [buildTestDetails, hcr2, hpx2]
  constructor
  · constructor
    · simp only [getConnectionDetails, hfind, resolveBody, hrf, hcr, hpx]
    · intro a ha
      simp only [getConnectionDetails, hfind, resolveBody, hrf, hcr, hpx] at ha
      simp only [List.append_nil, List.mem_cons] at ha
      rcases ha with h | h
      · subst h; rfl
      · exact (readonly_not_network a
          (resolveCredentials_readonly env raw am a (by rw [hcr]; exact h))).1
  · constructor
    · simp only [testUnsavedConnection, hbuild]
    · intro a ha
      simp only [testUnsavedConnection, hbuild] at ha
      simp only [List.mem_append, List.mem_singleton] at ha
      rcases ha with h | h
      · exact readonly_not_network a
          (testCredentials_readonly env cfg a (by rw [hcr2]; exact h))
      · subst h; exact ⟨rfl, by simp⟩

/-- Witness for C6: a stored proxy of type `FTP` makes both resolution
paths fail with the invalid-type error. -/
theorem invalid_proxy_type_fails_before_network_witness :
    (getConnectionDetails envC6 1).1 = .error (.wrapped (.invalidProxyType "FTP")) ∧
    (testUnsavedConnection envC6 wReady cfgC6).1 =
      some (.error (.resolveErr (.wrappedProxy (.invalidProxyType "FTP")))) :=
  ⟨(invalid_proxy_type_fails_before_network envC6 1 rawC6 "srv" "h" "u" 22 .password
      (none, none, none) "FTP" 9 "bad" "ph" 1080 wReady cfgC6 (some "secret", none, none)
      "FTP" 9 rpC6 "bad" "ph" 1080 rfl rfl rfl rfl rfl rfl rfl rfl rfl rfl rfl rfl rfl
      rfl rfl rfl rfl).1.1,
   (invalid_proxy_type_fails_before_network envC6 1 rawC6 "srv" "h" "u" 22 .password
      (none, none, none) "FTP" 9 "bad" "ph" 1080 wReady cfgC6 (some "secret", none, none)
      "FTP" 9 rpC6 "bad" "ph" 1080 rfl rfl rfl rfl rfl rfl rfl rfl rfl rfl rfl rfl rfl
      rfl rfl rfl rfl).2.1⟩

/-- Claim C8: any successfully resolved credential set — from the
persisted path or the inline-test construction — keeps the plaintext
secrets mutually exclusive per mode: password mode carries no private
key and no passphrase, key mode carries no password. -/
theorem resolved_secrets_mutually_exclusive
    (env : Env) (cid : Nat) (cfg : TestConnectionConfig)
    (d d2 : DecryptedConnectionDetails) (t t2 : List Act) :
    (getConnectionDetails env cid = (.ok d, t) →
       (d.auth_method = .password → d.privateKey = none ∧ d.passphrase = none) ∧
       (d.auth_method = .key → d.password = none)) ∧
    (buildTestDetails env cfg = (.ok d2, t2) →
       (d2.auth_method = .password → d2.privateKey = none ∧ d2.passphrase = none) ∧
       (d2.auth_method = .key → d2.password = none)) := by
  constructor
  · intro h
    obtain ⟨raw, t', hfind, hbody⟩ := getConnectionDetails_ok_inv env cid d t h
    obtain ⟨pw, pk, pp, t1, hcred, hpw, hpk, hpp⟩ := resolveBody_ok_fields env raw d t' hbody
    obtain ⟨e1, e2⟩ := resolveCredentials_exclusive env raw d.auth_method pw pk pp t1 hcred
    exact ⟨fun hm => ⟨hpk.trans (e1 hm).1, hpp.trans (e1 hm).2⟩,
           fun hm => hpw.trans (e2 hm)⟩
  · intro h
    obtain ⟨hid, ham, pw, pk, pp, t1, hcred, hpw, hpk, hpp⟩ :=
      buildTestDetails_ok_fields env cfg d2 t2 h
    obtain ⟨e1, e2⟩ := testCredentials_exclusive env cfg pw pk pp t1 hcred
    exact ⟨fun hm => ⟨hpk.trans (e1 (ham.symm.trans hm)).1,
                      hpp.trans (e1 (ham.symm.trans hm)).2⟩,
           fun hm => hpw.trans (e2 (ham.symm.trans hm))⟩

/-- Witness for C8: the key-mode credential set resolved for
connection 1 carries no plaintext password. -/
theorem resolved_secrets_mutually_exclusive_witness :
    dC2res.password = none :=
  ((resolved_secrets_mutually_exclusive envC2 1 cfgPwd dC2res dC2res
      [Act.repoLookup 1, Act.vaultFetch 7] []).1 rfl).2 rfl

/-- Claim C10: a successful `testUnsavedConnection` records the
last-connected update with the sentinel identifier `-1` that the test
path assigned to its ephemeral credential set. -/
theorem testUnsaved_success_updates_sentinel
    (env : Env) (w : World) (cfg : TestConnectionConfig) (n : Nat) (t : List Act)
    (h : testUnsavedConnection env w cfg = (some (.ok n), t)) :
    Act.updateLastConnected (-1) w.nowSeconds ∈ t := by
  unfold testUnsavedConnection at h
  split at h
  · simp at h
  · rename_i d t1 hbuild
    unfold runTestAttempt at h
    split at h
    · simp at h
    · simp at h
    · rename_i u heq
      injection h with h1 hsnd
      subst hsnd
      obtain ⟨_, _, hupd, _⟩ := establish_inv w d
      cases u
      have hmem := hupd heq
      have hid : d.id = -1 := (buildTestDetails_ok_fields env cfg d t1 hbuild).1
      rw [hid] at hmem
      exact List.mem_append.mpr (.inl (List.mem_append.mpr (.inr hmem)))

/-- Witness for C10: a concrete successful unsaved-connection test
recorded the update with id `-1`. -/
theorem testUnsaved_success_updates_sentinel_witness :
    Act.updateLastConnected (-1) 1700000000 ∈ tC10 :=
  testUnsaved_success_updates_sentinel envC2 wReady cfgPwd 42 tC10 rfl
